import Mathlib

/-!
Verification development for the networking abstraction layer of the
dither node runtime (src/node/src/net.rs).

The source file consists of trait declarations (a Network contract and a
capability hierarchy of transports) together with a NetConfig struct, a
Connection struct and its Debug impl.  We embed the declarations as data
(trait names, supertrait lists, method signatures, associated-type bounds,
translated one-to-one from the source) and, where a claim concerns the
behavioral contract of a trait whose implementation is absent from the
repository, we add a behavioral model whose doc comment marks it as
modelled from the spec.
-/

namespace DitherNet

/-- Names of the methods declared by the traits in src/node/src/net.rs. -/
inductive MethodName
  | create
  | lossy_send
  | lossy_recv
  | send
  | recv
  | init
  | connect
  | listen
deriving DecidableEq

/-- Rust types occurring in the signatures of src/node/src/net.rs,
embedded as a small syntax. -/
inductive RustTy
  | unit
  | usize
  | selfTy
  | initData
  | netConfig
  | nodeId
  | address
  | optPubKey
  | optPersistentState
  | addrIter
  | byteSlice
  | byteSliceMut
  | initError
  | transportError
  | connectionError
  | connection
  | pair (a b : RustTy)
  | fusedUnpinStream (item : RustTy)
  | result (ok err : RustTy)
deriving DecidableEq

/-- A method signature as written in the source: name, whether it is an
async fn, whether it takes a self reference, parameter types, return type. -/
structure MethodSig where
  mname : MethodName
  isAsync : Bool
  takesSelfRef : Bool
  params : List RustTy
  ret : RustTy
deriving DecidableEq

/-- Names of the transport traits declared in src/node/src/net.rs. -/
inductive TraitName
  | transport
  | lossyTransport
  | sequencingTransport
  | byzantineTransport
  | checkingTransport
  | reliableTransport
  | dataTransport
deriving DecidableEq

/-- A trait declaration: its name, its supertrait list and its own
(non-inherited) methods. -/
structure TraitDecl where
  tname : TraitName
  supers : List TraitName
  methods : List MethodSig
deriving DecidableEq

/-- Embedding of line 72: trait Transport with async fn create. -/
def transportDecl : TraitDecl :=
  { tname := .transport
    supers := []
    methods := [
      { mname := .create, isAsync := true, takesSelfRef := false,
        params := [.initData], ret := .result .selfTy .initError }] }

/-- Embedding of lines 106-111: trait LossyTransport: Transport with
lossy_send and lossy_recv. -/
def lossyTransportDecl : TraitDecl :=
  { tname := .lossyTransport
    supers := [.transport]
    methods := [
      { mname := .lossy_send, isAsync := false, takesSelfRef := true,
        params := [.byteSlice], ret := .result .usize .transportError },
      { mname := .lossy_recv, isAsync := false, takesSelfRef := true,
        params := [.byteSliceMut], ret := .result .usize .transportError }] }

/-- Embedding of lines 114-119: trait SequencingTransport: LossyTransport
with send and recv. -/
def sequencingTransportDecl : TraitDecl :=
  { tname := .sequencingTransport
    supers := [.lossyTransport]
    methods := [
      { mname := .send, isAsync := false, takesSelfRef := true,
        params := [.byteSlice], ret := .result .usize .transportError },
      { mname := .recv, isAsync := false, takesSelfRef := true,
        params := [.byteSliceMut], ret := .result .usize .transportError }] }

/-- Embedding of lines 122-124: trait ByzantineTransport: LossyTransport,
with an empty body. -/
def byzantineTransportDecl : TraitDecl :=
  { tname := .byzantineTransport
    supers := [.lossyTransport]
    methods := [] }

/-- Embedding of lines 127-129: trait CheckingTransport: LossyTransport,
with an empty body. -/
def checkingTransportDecl : TraitDecl :=
  { tname := .checkingTransport
    supers := [.lossyTransport]
    methods := [] }

/-- Embedding of lines 131-133: trait ReliableTransport: SequencingTransport
+ ByzantineTransport + CheckingTransport, with an empty body. -/
def reliableTransportDecl : TraitDecl :=
  { tname := .reliableTransport
    supers := [.sequencingTransport, .byzantineTransport, .checkingTransport]
    methods := [] }

/-- Embedding of line 138: trait DataTransport: Transport, empty body. -/
def dataTransportDecl : TraitDecl :=
  { tname := .dataTransport
    supers := [.transport]
    methods := [] }

/-- The trait table of the source file, by name. -/
def traitTable : TraitName → TraitDecl
  | .transport => transportDecl
  | .lossyTransport => lossyTransportDecl
  | .sequencingTransport => sequencingTransportDecl
  | .byzantineTransport => byzantineTransportDecl
  | .checkingTransport => checkingTransportDecl
  | .reliableTransport => reliableTransportDecl
  | .dataTransport => dataTransportDecl

/-- Rust coherence rule for capability sets: a type may implement a trait
only if it implements every supertrait of that trait. -/
def capClosed (has : TraitName → Bool) : Prop :=
  ∀ t, has t = true → ∀ s ∈ (traitTable t).supers, has s = true

/-- Embedding of lines 40-46: fn connect on trait Network.  It is not
async, takes a self reference, and returns the unit type (not a Result). -/
def connectSig : MethodSig :=
  { mname := .connect, isAsync := false, takesSelfRef := true,
    params := [.nodeId, .address, .optPubKey, .optPersistentState],
    ret := .unit }

/-- Embedding of lines 36-37: async fn init on trait Network.  It returns
a Result of a pair of the handle and a fused, unpinned stream of
connection results. -/
def initSig : MethodSig :=
  { mname := .init, isAsync := true, takesSelfRef := false,
    params := [.netConfig],
    ret := .result
      (.pair .selfTy (.fusedUnpinStream (.result .connection .connectionError)))
      .connectionError }

/-- Trait-bound capabilities required of the associated types of trait
Network (lines 16-34). -/
inductive Cap
  | sendB
  | syncB
  | cloneB
  | debugB
  | displayB
  | serdeSerialize
  | serdeDeserialize
  | rkyvSerialize
  | rkyvArchive
  | rkyvDeserialize
  | checkBytes
  | asRefBytes
  | hashB
  | eqB
deriving DecidableEq

/-- Bounds of type NodePrivKey (line 25): Send + Sync + Clone. -/
def nodePrivKeyBounds : List Cap := [.sendB, .syncB, .cloneB]

/-- Bounds of type NodePubKey (line 23): AsRef of bytes + Send + Sync +
Clone + Debug + serde Serialize + serde Deserialize. -/
def nodePubKeyBounds : List Cap :=
  [.asRefBytes, .sendB, .syncB, .cloneB, .debugB, .serdeSerialize, .serdeDeserialize]

/-- Bounds of type Address (lines 16-18). -/
def addressBounds : List Cap :=
  [.cloneB, .eqB, .hashB, .debugB, .displayB, .serdeDeserialize, .serdeSerialize,
   .rkyvSerialize, .rkyvArchive, .sendB, .syncB]

/-- Bounds of type ArchivedAddress (line 20). -/
def archivedAddressBounds : List Cap :=
  [.debugB, .rkyvDeserialize, .checkBytes, .sendB, .syncB]

/-- A capability set lets generic code emit the raw bytes or a textual
form of a value exactly when it grants a byte view, a serializer, or a
formatting capability. -/
def canEmitBytesOrText (bs : List Cap) : Bool :=
  bs.contains .asRefBytes || bs.contains .serdeSerialize ||
  bs.contains .rkyvSerialize || bs.contains .displayB || bs.contains .debugB

/-- Embedding of lines 52-56: struct NetConfig, with a private key, a
public key and a list of listen addresses.  Type parameters stand for the
associated types of the Network implementation. -/
structure NetConfig (Priv Pub A : Type) where
  private_key : Priv
  public_key : Pub
  listen_addrs : List A

/-- Embedding of lines 59-66: struct Connection, with a net address, the
remote public key, persistent state and independent read and write halves. -/
structure Connection (A Pub PS R W : Type) where
  net_address : A
  remote_pub_key : Pub
  persistent_state : PS
  read : R
  write : W

/-- Embedding of lines 67-69: the Debug impl for Connection formats a
struct named Connection with the single field net_address, given a Debug
printer for the address type. -/
def debugFmt {A Pub PS R W : Type} (dbgA : A → String)
    (c : Connection A Pub PS R W) : String :=
  "Connection \x7b net_address: " ++ dbgA c.net_address ++ " \x7d"

/-- A pending outbound connection request, holding exactly the arguments
of fn connect (lines 40-46). -/
structure ConnectRequest (A Pub PS : Type) where
  remote_id : Nat
  net_address : A
  remote_pub_key : Option Pub
  persistent_state : Option PS
deriving DecidableEq

/-- Modelled from the spec: the Network handle state visible to connect.
The source declares fn connect on trait Network but no implementation is
in the repository; per the spec, connect enqueues work, so the handle
carries the queue of pending requests whose outcomes later appear on the
incoming stream. -/
structure NetHandle (A Pub PS : Type) where
  pending : List (ConnectRequest A Pub PS)
deriving DecidableEq

/-- Modelled from the spec: fn connect (lines 40-46) requests an outbound
connection and returns immediately; it enqueues the request and returns
the unit value, never a result or error. -/
def connect {A Pub PS : Type} (h : NetHandle A Pub PS) (remote_id : Nat)
    (net_address : A) (remote_pub_key : Option Pub)
    (persistent_state : Option PS) : NetHandle A Pub PS × Unit :=
  (⟨h.pending ++ [⟨remote_id, net_address, remote_pub_key, persistent_state⟩]⟩, ())

/-- Initialization errors of the Network contract: invalid key material or
a listen address that cannot be bound. -/
inductive InitError
  | invalidKey
  | bindFailed
deriving DecidableEq

/-- Modelled from the spec: sequentially bind a list of listen addresses
on a substrate where bindable says which addresses can be bound; fail on
the first address that cannot be bound.  The implementation of
Network::init (lines 36-37) is absent from the repository. -/
def bindAddrs {A : Type} (bindable : A → Bool) : List A → Except InitError (List A)
  | [] => .ok []
  | a :: rest =>
    if bindable a then
      match bindAddrs bindable rest with
      | .ok l => .ok (a :: l)
      | .error e => .error e
    else .error .bindFailed

/-- Modelled from the spec: Network::init (lines 36-37) binds every
address of the configuration using the supplied keys and either succeeds
as a whole, returning a handle and the new set of bound addresses, or
fails as a whole with an initialization error, in which case every
address it had bound is released (atomic init: the caller observes the
prior bound set unchanged). -/
def initNet {Priv Pub A : Type} (validKey : Priv → Pub → Bool)
    (bindable : A → Bool) (cfg : NetConfig Priv Pub A) (st : List A) :
    Except InitError (NetHandle A Pub Unit × List A) :=
  if validKey cfg.private_key cfg.public_key then
    match bindAddrs bindable cfg.listen_addrs with
    | .ok newly => .ok (⟨[]⟩, st ++ newly)
    | .error e => .error e
  else .error .invalidKey

/-- The set of bound addresses after an init attempt: unchanged when init
failed, the returned set when it succeeded. -/
def stateAfter {A Pub : Type}
    (r : Except InitError (NetHandle A Pub Unit × List A)) (st : List A) : List A :=
  match r with
  | .error _ => st
  | .ok (_, st2) => st2

/-- Modelled from the spec: the contract of the futures FusedStream bound
on the stream returned by Network::init (line 37).  A stream is a step
function on states together with a termination flag; the fused law says a
terminated stream yields no item when polled. -/
structure FusedStreamModel (σ α : Type) where
  next : σ → Option (α × σ)
  is_terminated : σ → Bool
  fused : ∀ s, is_terminated s = true → next s = none

/-- Polling a stream model n+1 times and returning the last poll result;
a poll that yields no item leaves the state unchanged. -/
def pollN {σ α : Type} (m : FusedStreamModel σ α) : σ → Nat → Option α
  | s, 0 => (m.next s).map Prod.fst
  | s, n + 1 =>
    match m.next s with
    | none => pollN m s n
    | some (_, s2) => pollN m s2 n

/-- A stream that is already terminated in every state, used as a witness
instance of the fused-stream contract. -/
def haltedStream : FusedStreamModel Unit Nat :=
  { next := fun _ => none
    is_terminated := fun _ => true
    fused := fun _ _ => rfl }

/-- Modelled from the spec: the serialization contract on
Network::Address and Network::ArchivedAddress (lines 16-20).  The bounds
require a human-readable (serde) codec and a compact validated binary
(rkyv archived) codec, and the spec imposes the round-trip law on every
implementation; no implementation is in the repository. -/
structure AddressCodec (A : Type) where
  encodeReadable : A → String
  decodeReadable : String → Option A
  encodeArchived : A → List Nat
  decodeArchived : List Nat → Option A
  roundtripReadable : ∀ a, decodeReadable (encodeReadable a) = some a
  roundtripArchived : ∀ a, decodeArchived (encodeArchived a) = some a

/-- A concrete address codec on Nat: the readable form is a unary string,
the archived form is the base-256 digit list, validated on decode by
re-encoding (modelling CheckBytes validation). -/
def natAddressCodec : AddressCodec Nat where
  encodeReadable n := String.mk (List.replicate n 'x')
  decodeReadable s := if s.data.all (fun c => c == 'x') then some s.data.length else none
  encodeArchived n := Nat.digits 256 n
  decodeArchived l :=
    if Nat.digits 256 (Nat.ofDigits 256 l) = l then some (Nat.ofDigits 256 l) else none
  roundtripReadable n := by
    have hall : (List.replicate n 'x').all (fun c => c == 'x') = true := by
      rw [List.all_eq_true]
      intro c hc
      rw [List.eq_of_mem_replicate hc]
      rfl
    simp only [String.mk]
    simp [hall]
  roundtripArchived n := by
    simp [Nat.ofDigits_digits]

/-- The failure surfaced by the acknowledgment-and-retry layer when the
retry budget is exhausted. -/
inductive SendFailure
  | budgetExhausted
deriving DecidableEq

/-- Modelled from the spec: the acknowledgment-and-retry behavior of
ByzantineTransport (lines 122-124, whose trait body is empty in the
source).  ackOn says which transmission attempts the adversarial channel
acknowledges; the sender retransmits, consuming one unit of budget per
attempt, until an attempt is acknowledged or the budget is exhausted, at
which point it returns an explicit failure. -/
def retrySend (ackOn : Nat → Bool) : Nat → Nat → Except SendFailure Nat
  | 0, _ => .error .budgetExhausted
  | b + 1, i => if ackOn i then .ok i else retrySend ackOn b (i + 1)

/-- Outcomes a checking transport exposes per receive: a delivered unit, a
corruption discard, ordinary loss (nothing arrived), or a transport error. -/
inductive RecvOutcome (ε α : Type)
  | received (data : α)
  | corruptDiscarded
  | nothingArrived
  | transportFailed (e : ε)
deriving DecidableEq

/-- Modelled from the spec: the per-unit checksum attached by
CheckingTransport (lines 126-129, whose trait body is empty in the
source). -/
def checksum (data : List Nat) : Nat := (data.sum + data.length) % 65536

/-- A unit as put on the wire: the payload together with its checksum. -/
def attachChecksum (data : List Nat) : List Nat × Nat := (data, checksum data)

/-- Modelled from the spec: the receive side of CheckingTransport.  A
transport error propagates as its own case, an empty channel is ordinary
loss, and a unit whose checksum does not match is discarded as corrupt, a
case distinct from both others. -/
def checkedRecv {ε : Type} (incoming : Except ε (Option (List Nat × Nat))) :
    RecvOutcome ε (List Nat) :=
  match incoming with
  | .error e => .transportFailed e
  | .ok none => .nothingArrived
  | .ok (some (d, c)) => if checksum d = c then .received d else .corruptDiscarded

/-- The operations of LossyTransport (lines 106-111) as state-passing
functions: lossy_send takes the bytes and returns the count accepted,
lossy_recv takes the buffer capacity and returns the count received; each
either returns a count or fails with the transport error type. -/
structure LossyModel (σ ε : Type) where
  lossy_send : σ → List Nat → Except ε (Nat × σ)
  lossy_recv : σ → Nat → Except ε (Nat × σ)

/-- A lossy transport that accepts every byte for send and never delivers
anything: it satisfies the LossyTransport interface, witnessing that the
interface attaches no delivery guarantee. -/
def dropAllLossy : LossyModel Unit Unit :=
  { lossy_send := fun s d => .ok (d.length, s)
    lossy_recv := fun s _ => .ok (0, s) }

/-- Binding a list that contains an unbindable address fails. -/
theorem bindAddrs_error_of_unbindable {A : Type} (bindable : A → Bool)
    (l : List A) (h : ∃ a ∈ l, bindable a = false) :
    ∃ e, bindAddrs bindable l = .error e := by
  induction l with
  | nil => simp at h
  | cons a rest ih =>
    obtain ⟨b, hb, hfalse⟩ := h
    cases hba : bindable a with
    | false => exact ⟨.bindFailed, by simp [bindAddrs, hba]⟩
    | true =>
      have hbrest : b ∈ rest := by
        rcases List.mem_cons.mp hb with rfl | hr
        · rw [hba] at hfalse; cases hfalse
        · exact hr
      obtain ⟨e, he⟩ := ih ⟨b, hbrest, hfalse⟩
      exact ⟨e, by simp [bindAddrs, hba, he]⟩

/-- C1: Network::init is atomic.  For every NetConfig whose listen address
list contains an address that cannot be bound, or whose key material is
invalid, init returns an error as a whole, the set of bound addresses is
unchanged, no address of the list remains bound afterward, and no handle
is returned. -/
theorem C1_init_atomic {Priv Pub A : Type} (validKey : Priv → Pub → Bool)
    (bindable : A → Bool) (cfg : NetConfig Priv Pub A) (st : List A)
    (hfail : validKey cfg.private_key cfg.public_key = false ∨
      ∃ a ∈ cfg.listen_addrs, bindable a = false) :
    (∃ e, initNet validKey bindable cfg st = .error e) ∧
    stateAfter (initNet validKey bindable cfg st) st = st ∧
    (∀ a ∈ cfg.listen_addrs, a ∉ st →
      a ∉ stateAfter (initNet validKey bindable cfg st) st) ∧
    ¬ ∃ hd st2, initNet validKey bindable cfg st = .ok (hd, st2) := by
  have herr : ∃ e, initNet validKey bindable cfg st = .error e := by
    rcases hfail with hk | hb
    · exact ⟨.invalidKey, by simp [initNet, hk]⟩
    · obtain ⟨e, he⟩ := bindAddrs_error_of_unbindable bindable _ hb
      cases hk : validKey cfg.private_key cfg.public_key with
      | true => exact ⟨e, by simp [initNet, hk, he]⟩
      | false => exact ⟨.invalidKey, by simp [initNet, hk]⟩
  obtain ⟨e, he⟩ := herr
  refine ⟨⟨e, he⟩, ?_, ?_, ?_⟩
  · rw [he]; rfl
  · intro a _ hnot
    rw [he]
    exact hnot
  · rintro ⟨hd, st2, hok⟩
    rw [he] at hok
    cases hok

/-- C1 witness: a config listening on addresses 1, 2, 3 where address 2
cannot be bound; init fails wholly and nothing stays bound. -/
theorem C1_init_atomic_witness :
    (∃ e, initNet (fun (_ : Unit) (_ : Unit) => true) (fun a => a != 2)
      ⟨(), (), [1, 2, 3]⟩ [] = .error e) ∧
    stateAfter (initNet (fun (_ : Unit) (_ : Unit) => true) (fun a => a != 2)
      ⟨(), (), [1, 2, 3]⟩ []) [] = [] ∧
    (∀ a ∈ (NetConfig.listen_addrs (A := Nat) ⟨(), (), [1, 2, 3]⟩), a ∉ ([] : List Nat) →
      a ∉ stateAfter (initNet (fun (_ : Unit) (_ : Unit) => true) (fun a => a != 2)
        ⟨(), (), [1, 2, 3]⟩ []) []) ∧
    ¬ ∃ hd st2, initNet (fun (_ : Unit) (_ : Unit) => true) (fun a => a != 2)
      ⟨(), (), [1, 2, 3]⟩ [] = .ok (hd, st2) :=
  C1_init_atomic (fun _ _ => true) (fun a => a != 2) ⟨(), (), [1, 2, 3]⟩ []
    (Or.inr ⟨2, by simp, rfl⟩)

/-- C2: the address round-trip law.  For every codec satisfying the
Address contract and every address value, decoding the encoding yields the
value back, for both the human-readable and the compact binary archived
encoding; consequently both encodings are injective, so equal addresses
serialize identically and distinct addresses never collide. -/
theorem C2_address_roundtrip {A : Type} (c : AddressCodec A) (a : A) :
    c.decodeReadable (c.encodeReadable a) = some a ∧
    c.decodeArchived (c.encodeArchived a) = some a ∧
    (∀ b, c.encodeReadable a = c.encodeReadable b → a = b) ∧
    (∀ b, c.encodeArchived a = c.encodeArchived b → a = b) := by
  refine ⟨c.roundtripReadable a, c.roundtripArchived a, ?_, ?_⟩
  · intro b hb
    have h1 := c.roundtripReadable a
    rw [hb, c.roundtripReadable b] at h1
    exact (Option.some.inj h1).symm
  · intro b hb
    have h1 := c.roundtripArchived a
    rw [hb, c.roundtripArchived b] at h1
    exact (Option.some.inj h1).symm

/-- C2 witness: the concrete Nat codec round-trips the address 300 under
both encodings. -/
theorem C2_address_roundtrip_witness :
    natAddressCodec.decodeReadable (natAddressCodec.encodeReadable 300) = some 300 ∧
    natAddressCodec.decodeArchived (natAddressCodec.encodeArchived 300) = some 300 :=
  ⟨(C2_address_roundtrip natAddressCodec 300).1,
   (C2_address_roundtrip natAddressCodec 300).2.1⟩

/-- C3: connect is non-suspending and returns the unit value for every
input: its declared signature is a plain fn returning the unit type, never
a Result, and the modelled operation returns the unit value while only
enqueuing the request, whose outcome is left to appear on the incoming
stream. -/
theorem C3_connect_returns_unit {A Pub PS : Type} (h : NetHandle A Pub PS)
    (remote_id : Nat) (net_address : A) (remote_pub_key : Option Pub)
    (persistent_state : Option PS) :
    connectSig.isAsync = false ∧
    connectSig.ret = RustTy.unit ∧
    (∀ okT errT, connectSig.ret ≠ RustTy.result okT errT) ∧
    (connect h remote_id net_address remote_pub_key persistent_state).2 = () ∧
    (connect h remote_id net_address remote_pub_key persistent_state).1.pending =
      h.pending ++ [⟨remote_id, net_address, remote_pub_key, persistent_state⟩] :=
  ⟨rfl, rfl, fun _ _ hc => RustTy.noConfusion hc, rfl, rfl⟩

/-- C3 witness: a concrete connect call on an empty handle returns the
unit value and enqueues exactly its request. -/
theorem C3_connect_returns_unit_witness :
    (connect (⟨[]⟩ : NetHandle Nat Nat Nat) 7 5 none none).2 = () ∧
    (connect (⟨[]⟩ : NetHandle Nat Nat Nat) 7 5 none none).1.pending =
      ([] : List (ConnectRequest Nat Nat Nat)) ++ [⟨7, 5, none, none⟩] :=
  ⟨(C3_connect_returns_unit ⟨[]⟩ 7 5 none none).2.2.2.1,
   (C3_connect_returns_unit ⟨[]⟩ 7 5 none none).2.2.2.2⟩

/-- C4: the incoming stream of Network::init is declared fused, and the
fused-stream contract gives a definite end of stream: a terminated stream
yields no item on the next poll nor on any later poll. -/
theorem C4_stream_fused {σ α : Type} (m : FusedStreamModel σ α) (s : σ)
    (hterm : m.is_terminated s = true) :
    (∃ item, initSig.ret =
      RustTy.result (RustTy.pair RustTy.selfTy (RustTy.fusedUnpinStream item))
        RustTy.connectionError) ∧
    m.next s = none ∧
    (∀ n, pollN m s n = none) := by
  have hnext := m.fused s hterm
  refine ⟨⟨RustTy.result RustTy.connection RustTy.connectionError, rfl⟩, hnext, ?_⟩
  intro n
  induction n with
  | zero => simp [pollN, hnext]
  | succ k ih =>
    simp only [pollN, hnext]
    exact ih

/-- C4 witness: the always-terminated stream yields nothing on the fifth
poll. -/
theorem C4_stream_fused_witness :
    haltedStream.next () = none ∧ pollN haltedStream () 5 = none :=
  ⟨(C4_stream_fused haltedStream () rfl).2.1,
   (C4_stream_fused haltedStream () rfl).2.2 5⟩

/-- C5: ReliableTransport is exactly the capability intersection of
SequencingTransport, ByzantineTransport and CheckingTransport: its
supertrait list is precisely those three, it declares no method of its
own, and under the coherence rule any capability set containing
ReliableTransport contains all three. -/
theorem C5_reliable_intersection :
    reliableTransportDecl.supers =
      [TraitName.sequencingTransport, TraitName.byzantineTransport,
       TraitName.checkingTransport] ∧
    reliableTransportDecl.methods = [] ∧
    ∀ has : TraitName → Bool, capClosed has → has .reliableTransport = true →
      has .sequencingTransport = true ∧ has .byzantineTransport = true ∧
      has .checkingTransport = true := by
  refine ⟨rfl, rfl, ?_⟩
  intro has hclosed hrel
  have h := hclosed .reliableTransport hrel
  exact ⟨h _ (by decide), h _ (by decide), h _ (by decide)⟩

/-- A capability set granting every trait, used as a coherent witness. -/
def allCaps : TraitName → Bool := fun _ => true

/-- C5 witness: the full capability set is coherent, has ReliableTransport
and therefore has the three component capabilities. -/
theorem C5_reliable_intersection_witness :
    allCaps .sequencingTransport = true ∧ allCaps .byzantineTransport = true ∧
    allCaps .checkingTransport = true :=
  C5_reliable_intersection.2.2 allCaps (fun _ _ _ _ => rfl) rfl

/-- C6: LossyTransport declares exactly a send operation taking a byte
slice and returning a Result of the count accepted or the transport error,
and a recv operation taking a buffer and returning a Result of the count
received or the transport error; every modelled call returns a count or an
error; and a transport that accepts every byte yet never delivers any
satisfies the interface, so no delivery guarantee is attached. -/
theorem C6_lossy_send_recv :
    lossyTransportDecl.methods = [
      { mname := .lossy_send, isAsync := false, takesSelfRef := true,
        params := [.byteSlice], ret := .result .usize .transportError },
      { mname := .lossy_recv, isAsync := false, takesSelfRef := true,
        params := [.byteSliceMut], ret := .result .usize .transportError }] ∧
    (∀ (σ ε : Type) (m : LossyModel σ ε) (s : σ) (d : List Nat),
      (∃ n s2, m.lossy_send s d = .ok (n, s2)) ∨ (∃ e, m.lossy_send s d = .error e)) ∧
    (∀ (σ ε : Type) (m : LossyModel σ ε) (s : σ) (cap : Nat),
      (∃ n s2, m.lossy_recv s cap = .ok (n, s2)) ∨ (∃ e, m.lossy_recv s cap = .error e)) ∧
    (∀ (d : List Nat), dropAllLossy.lossy_send () d = .ok (d.length, ())) ∧
    (∀ (cap : Nat), dropAllLossy.lossy_recv () cap = .ok (0, ())) := by
  refine ⟨rfl, ?_, ?_, fun _ => rfl, fun _ => rfl⟩
  · intro σ ε m s d
    cases hsend : m.lossy_send s d with
    | ok p => exact Or.inl ⟨p.1, p.2, rfl⟩
    | error e => exact Or.inr ⟨e, rfl⟩
  · intro σ ε m s cap
    cases hrecv : m.lossy_recv s cap with
    | ok p => exact Or.inl ⟨p.1, p.2, rfl⟩
    | error e => exact Or.inr ⟨e, rfl⟩

/-- C6 witness: the drop-all transport accepts three bytes for send and
receives none. -/
theorem C6_lossy_send_recv_witness :
    dropAllLossy.lossy_send () [1, 2, 3] = .ok (3, ()) ∧
    dropAllLossy.lossy_recv () 10 = .ok (0, ()) :=
  ⟨C6_lossy_send_recv.2.2.2.1 [1, 2, 3], C6_lossy_send_recv.2.2.2.2 10⟩

/-- C7: ByzantineTransport retransmits until acknowledged or the retry
budget is exhausted.  When no attempt within the budget is acknowledged
the result is the explicit budget-exhausted failure, never silence; when
a unit is returned as sent, that attempt was acknowledged and lay within
the budget. -/
theorem C7_byzantine_retry (ackOn : Nat → Bool) (b start : Nat) :
    ((∀ j, j < b → ackOn (start + j) = false) →
      retrySend ackOn b start = .error .budgetExhausted) ∧
    (∀ i, retrySend ackOn b start = .ok i →
      ackOn i = true ∧ start ≤ i ∧ i < start + b) := by
  induction b generalizing start with
  | zero =>
    refine ⟨fun _ => rfl, ?_⟩
    intro i hok
    exact absurd hok (by simp [retrySend])
  | succ k ih =>
    constructor
    · intro hnone
      have h0 : ackOn start = false := by simpa using hnone 0 (Nat.succ_pos k)
      have hrest : ∀ j, j < k → ackOn (start + 1 + j) = false := by
        intro j hj
        have hx := hnone (j + 1) (by omega)
        have harith : start + (j + 1) = start + 1 + j := by omega
        rwa [harith] at hx
      simp only [retrySend, h0, Bool.false_eq_true, if_false]
      exact (ih (start + 1)).1 hrest
    · intro i hok
      cases hao : ackOn start with
      | true =>
        have hval : retrySend ackOn (k + 1) start = .ok start := by
          simp [retrySend, hao]
        rw [hval] at hok
        obtain rfl : start = i := Except.ok.inj hok
        exact ⟨hao, Nat.le_refl start, by omega⟩
      | false =>
        have hstep : retrySend ackOn (k + 1) start = retrySend ackOn k (start + 1) := by
          simp [retrySend, hao]
        rw [hstep] at hok
        obtain ⟨hack, hle, hlt⟩ := (ih (start + 1)).2 i hok
        exact ⟨hack, by omega, by omega⟩

/-- C7 witness: with a channel that never acknowledges and a budget of
three attempts, the retry layer surfaces the explicit failure. -/
theorem C7_byzantine_retry_witness :
    retrySend (fun _ => false) 3 0 = .error .budgetExhausted :=
  (C7_byzantine_retry (fun _ => false) 3 0).1 (fun _ _ => rfl)

/-- C8: CheckingTransport attaches a checksum per unit and exposes the
discard of a corrupted unit as its own outcome: a unit whose checksum
does not match is discarded as corrupt, a unit sent with its attached
checksum is received, ordinary loss and transport errors are their own
cases, and the corruption-discard outcome differs from loss, from a
transport error and from a delivery. -/
theorem C8_checking_distinguishes {ε : Type} (d : List Nat) (c : Nat) (e : ε)
    (hcorrupt : checksum d ≠ c) :
    checkedRecv (Except.ok (some (d, c)) : Except ε (Option (List Nat × Nat))) =
      .corruptDiscarded ∧
    checkedRecv (Except.ok (some (attachChecksum d)) : Except ε (Option (List Nat × Nat))) =
      .received d ∧
    checkedRecv (Except.ok none : Except ε (Option (List Nat × Nat))) = .nothingArrived ∧
    checkedRecv (Except.error e : Except ε (Option (List Nat × Nat))) = .transportFailed e ∧
    (RecvOutcome.corruptDiscarded : RecvOutcome ε (List Nat)) ≠ .nothingArrived ∧
    (RecvOutcome.corruptDiscarded : RecvOutcome ε (List Nat)) ≠ .transportFailed e ∧
    (RecvOutcome.corruptDiscarded : RecvOutcome ε (List Nat)) ≠ .received d := by
  refine ⟨?_, ?_, rfl, rfl, ?_, ?_, ?_⟩
  · simp [checkedRecv, hcorrupt]
  · simp [checkedRecv, attachChecksum]
  · exact fun hc => RecvOutcome.noConfusion hc
  · exact fun hc => RecvOutcome.noConfusion hc
  · exact fun hc => RecvOutcome.noConfusion hc

/-- C8 witness: the unit with payload 1, 2 and claimed checksum 999 is
discarded as corrupt, and that outcome differs from loss, error and
delivery. -/
theorem C8_checking_distinguishes_witness :
    checkedRecv (Except.ok (some ([1, 2], 999)) : Except Unit (Option (List Nat × Nat))) =
      .corruptDiscarded ∧
    checkedRecv (Except.ok (some (attachChecksum [1, 2])) : Except Unit (Option (List Nat × Nat))) =
      .received [1, 2] ∧
    checkedRecv (Except.ok none : Except Unit (Option (List Nat × Nat))) = .nothingArrived ∧
    checkedRecv (Except.error () : Except Unit (Option (List Nat × Nat))) = .transportFailed () ∧
    (RecvOutcome.corruptDiscarded : RecvOutcome Unit (List Nat)) ≠ .nothingArrived ∧
    (RecvOutcome.corruptDiscarded : RecvOutcome Unit (List Nat)) ≠ .transportFailed () ∧
    (RecvOutcome.corruptDiscarded : RecvOutcome Unit (List Nat)) ≠ .received [1, 2] :=
  C8_checking_distinguishes [1, 2] 999 () (by decide)

/-- C9: the NodePrivKey associated type carries no serialization or
display capability: none of the byte-emitting or text-emitting bounds
appears among its declared bounds, so the contract gives core code no way
to emit a private key, while NodePubKey does carry such bounds. -/
theorem C9_privkey_not_serializable :
    canEmitBytesOrText nodePrivKeyBounds = false ∧
    Cap.serdeSerialize ∉ nodePrivKeyBounds ∧
    Cap.serdeDeserialize ∉ nodePrivKeyBounds ∧
    Cap.rkyvSerialize ∉ nodePrivKeyBounds ∧
    Cap.displayB ∉ nodePrivKeyBounds ∧
    Cap.debugB ∉ nodePrivKeyBounds ∧
    Cap.asRefBytes ∉ nodePrivKeyBounds ∧
    canEmitBytesOrText nodePubKeyBounds = true ∧
    Cap.serdeSerialize ∈ nodePubKeyBounds ∧
    Cap.debugB ∈ nodePubKeyBounds := by decide

/-- C10: the Debug formatting of a Connection reveals only the
net_address field: two connections with equal addresses and arbitrary
other fields format identically, so the output carries no information
from the remote public key, the persistent state, or the read and write
halves. -/
theorem C10_debug_only_net_address {A Pub PS R W : Type} (dbgA : A → String)
    (c c2 : Connection A Pub PS R W) (haddr : c.net_address = c2.net_address) :
    debugFmt dbgA c = debugFmt dbgA c2 := by
  simp [debugFmt, haddr]

/-- C10 witness: two connections sharing address 5 but differing in every
other field have the same debug output. -/
theorem C10_debug_only_net_address_witness :
    debugFmt Nat.repr (⟨5, 1, 2, 3, 4⟩ : Connection Nat Nat Nat Nat Nat) =
    debugFmt Nat.repr (⟨5, 9, 8, 7, 6⟩ : Connection Nat Nat Nat Nat Nat) :=
  C10_debug_only_net_address Nat.repr ⟨5, 1, 2, 3, 4⟩ ⟨5, 9, 8, 7, 6⟩ rfl

end DitherNet
